import Mathlib

/-!
Shallow embedding of the PASHUMITRA transactional-email subsystem:
the Resend transport adapter (src/backend/services/resendEmailService.js),
the delivery router (src/backend/services/emailManager.js), and the auth
request handlers that consume them (src/backend/controllers/authController.js).

JavaScript conventions used throughout the embedding:
an optional string field models a JS value that is a string or undefined
(`none` is undefined); JS truthiness of such a value is `envTruthy`;
exceptions are modelled with `Except String`, and a try/catch block whose
catch converts the exception into a returned value is modelled by matching
on the `Except`. Vendor SDK calls are modelled as function parameters, and
each embedded send operation additionally returns how many vendor (network)
calls it performed, so that claims about "no network call" are statements
about that count.
-/

/-- Truthiness of a JavaScript string-or-undefined value (`none` models
undefined): undefined and the empty string are falsy, every other string is
truthy. This is the JS `!!x` for the string-typed values this code reads. -/
def envTruthy : Option String → Bool
  | none => false
  | some s => !s.isEmpty

/-- JavaScript `a || b` on string-or-undefined values: yields `a` when `a` is
truthy, otherwise `b`. -/
def jsOr (a b : Option String) : Option String :=
  if envTruthy a then a else b

/-- JavaScript `a || "d"` where the right operand is a (truthy) string
literal default; the result is always a string. -/
def orDefault (a : Option String) (d : String) : String :=
  if envTruthy a then a.getD d else d

/-- JavaScript template interpolation of a possibly-undefined value:
interpolating undefined produces the text "undefined". -/
def jsStr : Option String → String
  | none => "undefined"
  | some s => s

/-- Process environment variables read by the email subsystem
(emailManager.js and resendEmailService.js constructors, getStatus, and the
welcome template which reads process.env.FRONTEND_URL directly). A value of
`none` models an unset variable. -/
structure Env where
  RESEND_API_KEY : Option String := none
  EMAIL_FROM : Option String := none
  EMAIL_FROM_NAME : Option String := none
  FRONTEND_URL : Option String := none
  EMAIL_SERVICE : Option String := none
  AWS_ACCESS_KEY_ID : Option String := none
  AWS_SECRET_ACCESS_KEY : Option String := none
deriving DecidableEq

/-- The `to` field of the email-data object passed to
ResendEmailService.sendEmail: a JS value that is undefined, a single string,
or an array of strings (the code branches on `Array.isArray(to)`). -/
inductive Recipient where
  | undef
  | str (s : String)
  | arr (l : List String)
deriving DecidableEq

/-- JS truthiness of the `to` value: undefined is falsy, a string is truthy
exactly when non-empty, and an array object is always truthy. -/
def Recipient.truthy : Recipient → Bool
  | .undef => false
  | .str s => !s.isEmpty
  | .arr _ => true

/-- The normalisation `Array.isArray(to) ? to : [to]` performed on a truthy
`to` value before it is placed in the vendor payload. (The `undef` case is
unreachable behind the truthiness guard in sendEmail.) -/
def Recipient.toSendList : Recipient → List String
  | .undef => []
  | .str s => [s]
  | .arr l => l

/-- The emailData argument accepted by ResendEmailService.sendEmail and
EmailManager.sendEmail. The code tolerates both the html/htmlContent and the
text/textContent field spellings, so the embedding carries all four; `none`
models an absent field. -/
structure EmailData where
  «to» : Recipient := .undef
  subject : Option String := none
  htmlContent : Option String := none
  textContent : Option String := none
  html : Option String := none
  text : Option String := none
deriving DecidableEq

/-- The normalised result object returned by every send path (success flag,
optional message id, originating service tag, optional error detail,
optional timestamp). Fields that a given return site does not set are
`none`. -/
structure SendResult where
  success : Bool
  messageId : Option String := none
  service : Option String := none
  error : Option String := none
  timestamp : Option String := none
deriving DecidableEq

/-- The provider-specific payload ResendEmailService.sendEmail builds for the
vendor SDK: from (renamed fromAddr since `from` is reserved in Lean), to
list, subject, html, and the text field which is only present when the text
content is truthy. -/
structure EmailPayload where
  fromAddr : String
  «to» : List String
  subject : String
  html : String
  text : Option String
deriving DecidableEq

/-- The value resolved by the vendor SDK send call on success; the code reads
`data.id` from it. -/
structure ResendResponse where
  id : Option String := none
deriving DecidableEq

/-- The state the ResendEmailService constructor derives from the
environment: the raw api key, whether a client object was constructed
(`this.resend`, truthy exactly when the key is truthy), and the three
defaulted configuration strings. -/
structure ResendConfig where
  apiKey : Option String
  hasClient : Bool
  fromEmail : String
  fromName : String
  frontendUrl : String
deriving DecidableEq

/-- The ResendEmailService constructor (resendEmailService.js lines 5 to 11). -/
def ResendConfig.ofEnv (env : Env) : ResendConfig :=
  { apiKey := env.RESEND_API_KEY
    hasClient := envTruthy env.RESEND_API_KEY
    fromEmail := orDefault env.EMAIL_FROM "onboarding@resend.dev"
    fromName := orDefault env.EMAIL_FROM_NAME "PashuMitra Portal"
    frontendUrl := orDefault env.FRONTEND_URL "http://localhost:3000" }

/-- Embedding of ResendEmailService.sendEmail (resendEmailService.js lines 16
to 73). The vendor SDK call `this.resend.emails.send` is the `vendor`
parameter; a vendor exception is a `.error` value. `now` stands for the
timestamp string `new Date().toISOString()` taken on the success path. The
whole body sits in a try/catch whose catch returns the failure object, so
every thrown error (missing configuration, missing parameters, vendor
throw) becomes a returned SendResult with `success := false` and the thrown
message as `error`; the second component counts vendor (network) calls. -/
def ResendEmailService.sendEmail (cfg : ResendConfig) (now : String)
    (vendor : EmailPayload → Except String ResendResponse)
    (emailData : EmailData) : SendResult × Nat :=
  if !(envTruthy cfg.apiKey) || !cfg.hasClient then
    ({ success := false
       error := some "RESEND_API_KEY not configured in environment variables"
       service := some "resend" }, 0)
  else
    let htmlToSend := jsOr emailData.html emailData.htmlContent
    let textToSend := jsOr emailData.text emailData.textContent
    if !emailData.«to».truthy || !(envTruthy emailData.subject) || !(envTruthy htmlToSend) then
      ({ success := false
         error := some "Missing required email parameters: to, subject, html"
         service := some "resend" }, 0)
    else
      let payload : EmailPayload :=
        { fromAddr := cfg.fromName ++ " <" ++ cfg.fromEmail ++ ">"
          «to» := emailData.«to».toSendList
          subject := emailData.subject.getD ""
          html := htmlToSend.getD ""
          text := if envTruthy textToSend then textToSend else none }
      match vendor payload with
      | Except.ok data =>
          ({ success := true
             messageId := data.id
             service := some "resend"
             timestamp := some now }, 1)
      | Except.error e =>
          ({ success := false
             error := some e
             service := some "resend" }, 1)

/-- A recipient profile as destructured by the builders: `const { email, name } = userData`. -/
structure UserProfile where
  name : String
  email : String
deriving DecidableEq

/-- The verification URL built by sendEmailVerification (resendEmailService.js
line 148). -/
def verificationUrl (frontendUrl token : String) : String :=
  frontendUrl ++ "/verify-email?token=" ++ token

/-- The htmlContent template literal of sendWelcomeEmail (resendEmailService.js
lines 82 to 131), transcribed verbatim; `frontendEnv` is the raw
process.env.FRONTEND_URL the template interpolates (undefined interpolates as
the text "undefined"), and `year` is `new Date().getFullYear()`. -/
def welcomeHtml (name : String) (frontendEnv : Option String) (year : Nat) : String :=
  "\n    <!DOCTYPE html>\n    <html>\n    <head>\n        <meta charset=\"UTF-8\">\n        <title>Welcome to PashuMitra Portal</title>\n    </head>\n    <body style=\"font-family: Arial, sans-serif; line-height: 1.6; color: #333; margin: 0; padding: 0;\">\n        <div style=\"max-width: 600px; margin: 0 auto; background: #ffffff;\">\n            <div style=\"background: linear-gradient(135deg, #4CAF50, #2E7D32); color: white; padding: 30px; text-align: center;\">\n                <h1 style=\"margin: 0; font-size: 28px;\">🐄 Welcome to PashuMitra Portal!</h1>\n            </div>\n            \n            <div style=\"padding: 30px;\">\n                <h2 style=\"color: #4CAF50; margin-top: 0;\">Hello "
  ++ name
  ++ "!</h2>\n                <p>Thank you for joining PashuMitra Portal, India\x27s leading livestock disease monitoring and management system.</p>\n                \n                <div style=\"background: #e8f5e8; padding: 20px; border-radius: 8px; margin: 20px 0;\">\n                    <h3 style=\"color: #2E7D32; margin-top: 0;\">🎯 What you can do with PashuMitra Portal:</h3>\n                    <ul style=\"margin: 0; padding-left: 20px;\">\n                        <li>📊 Monitor your livestock health in real-time</li>\n                        <li>🚨 Receive instant alerts for health issues</li>\n                        <li>🩺 Connect with certified veterinarians</li>\n                        <li>📈 Track health trends and analytics</li>\n                        <li>📁 Manage medical records and documents</li>\n                    </ul>\n                </div>\n                \n                <p>Your account is now active and ready to use. Please verify your email address to access all features.</p>\n                \n                <div style=\"text-align: center; margin: 30px 0;\">\n                    <a href=\""
  ++ jsStr frontendEnv
  ++ "/dashboard\" \n                       style=\"background: #4CAF50; color: white; padding: 15px 30px; text-decoration: none; border-radius: 5px; display: inline-block; font-weight: bold;\">\n                        Go to Dashboard\n                    </a>\n                </div>\n                \n                <p>If you have any questions or need assistance, our support team is here to help you 24/7.</p>\n                \n                <p>Best regards,<br><strong>The PashuMitra Team</strong></p>\n                \n                <hr style=\"margin: 30px 0; border: none; border-top: 1px solid #eee;\">\n                <p style=\"font-size: 12px; color: #666; text-align: center;\">\n                    © "
  ++ toString year
  ++ " PashuMitra Portal. All rights reserved.<br>\n                    Made with ❤️ for Indian farmers and livestock owners\n                </p>\n            </div>\n        </div>\n    </body>\n    </html>"

/-- The textContent template literal of sendWelcomeEmail (resendEmailService.js
line 133), transcribed verbatim. -/
def welcomeText (name : String) (frontendEnv : Option String) (year : Nat) : String :=
  "Welcome to PashuMitra Portal!\n\nHello "
  ++ name
  ++ "!\n\nThank you for joining PashuMitra Portal, India\x27s leading livestock disease monitoring and management system.\n\nWhat you can do with PashuMitra Portal:\n- Monitor your livestock health in real-time\n- Receive instant alerts for health issues\n- Connect with certified veterinarians\n- Track health trends and analytics\n- Manage medical records and documents\n\nYour account is now active and ready to use. Please verify your email address to access all features.\n\nVisit your dashboard: "
  ++ jsStr frontendEnv
  ++ "/dashboard\n\nIf you have any questions or need assistance, our support team is here to help you 24/7.\n\nBest regards,\nThe PashuMitra Team\n\n© "
  ++ toString year
  ++ " PashuMitra Portal. All rights reserved.\nMade with ❤️ for Indian farmers and livestock owners"

/-- The htmlContent template literal of sendEmailVerification
(resendEmailService.js lines 151 to 195), transcribed verbatim; `url` is the
interpolated verificationUrl and `fromEmail` is `this.fromEmail`. -/
def verificationHtml (name url fromEmail : String) (year : Nat) : String :=
  "\n    <!DOCTYPE html>\n    <html>\n    <head>\n        <meta charset=\"UTF-8\">\n        <title>Email Verification - PashuMitra Portal</title>\n    </head>\n    <body style=\"font-family: Arial, sans-serif; line-height: 1.6; color: #333; margin: 0; padding: 0;\">\n        <div style=\"max-width: 600px; margin: 0 auto; background: #ffffff;\">\n            <div style=\"background: #4CAF50; color: white; padding: 20px; text-align: center;\">\n                <h2 style=\"margin: 0;\">📧 Email Verification Required</h2>\n            </div>\n            \n            <div style=\"padding: 30px;\">\n                <h3>Hello "
  ++ name
  ++ "!</h3>\n                <p>Thank you for registering with PashuMitra Portal. To complete your registration and secure your account, please verify your email address.</p>\n                \n                <div style=\"text-align: center; margin: 30px 0;\">\n                    <a href=\""
  ++ url
  ++ "\" \n                       style=\"background: #4CAF50; color: white; padding: 15px 25px; text-decoration: none; border-radius: 5px; display: inline-block; font-weight: bold;\">\n                        ✅ Verify Email Address\n                    </a>\n                </div>\n                \n                <p>If the button doesn\x27t work, please copy and paste this link into your browser:</p>\n                <p style=\"background: #f5f5f5; padding: 10px; border-radius: 5px; word-break: break-all; font-family: monospace;\">\n                    "
  ++ url
  ++ "\n                </p>\n                \n                <div style=\"background: #fff3cd; padding: 15px; border-radius: 5px; border-left: 4px solid #ffc107; margin: 20px 0;\">\n                    <p style=\"margin: 0;\"><strong>⏰ Important:</strong> This verification link will expire in 24 hours for security reasons.</p>\n                </div>\n                \n                <p>If you didn\x27t create an account with PashuMitra Portal, please ignore this email.</p>\n                <p>Need help? Contact our support team at <a href=\"mailto:"
  ++ fromEmail
  ++ "\">"
  ++ fromEmail
  ++ "</a></p>\n                \n                <hr style=\"margin: 30px 0; border: none; border-top: 1px solid #eee;\">\n                <p style=\"font-size: 12px; color: #666; text-align: center;\">\n                    © "
  ++ toString year
  ++ " PashuMitra Portal<br>\n                    Powered by Resend\n                </p>\n            </div>\n        </div>\n    </body>\n    </html>"

/-- The textContent template literal of sendEmailVerification
(resendEmailService.js line 197), transcribed verbatim. -/
def verificationText (name url : String) (year : Nat) : String :=
  "Email Verification Required\n\nHello "
  ++ name
  ++ "!\n\nThank you for registering with PashuMitra Portal. To complete your registration and secure your account, please verify your email address.\n\nClick here to verify: "
  ++ url
  ++ "\n\nThis verification link will expire in 24 hours for security reasons.\n\nIf you didn\x27t create this account, please ignore this email.\n\n© "
  ++ toString year
  ++ " PashuMitra Portal"

/-- The Message object sendWelcomeEmail constructs and hands to sendEmail
(resendEmailService.js lines 135 to 140): the pure message-construction half
of the function. -/
def welcomeEmailData (name email : String) (frontendEnv : Option String) (year : Nat) : EmailData :=
  { «to» := .str email
    subject := some "Welcome to PashuMitra Portal! 🐄"
    htmlContent := some (welcomeHtml name frontendEnv year)
    textContent := some (welcomeText name frontendEnv year) }

/-- The Message object sendEmailVerification constructs and hands to sendEmail
(resendEmailService.js lines 146 to 204): the pure message-construction half
of the function. -/
def verificationEmailData (cfg : ResendConfig) (name email token : String) (year : Nat) : EmailData :=
  { «to» := .str email
    subject := some "Verify Your Email - PashuMitra Portal"
    htmlContent := some (verificationHtml name (verificationUrl cfg.frontendUrl token) cfg.fromEmail year)
    textContent := some (verificationText name (verificationUrl cfg.frontendUrl token) year) }

/-- Embedding of ResendEmailService.sendWelcomeEmail (resendEmailService.js
lines 78 to 141): builds the welcome message and delegates to sendEmail. -/
def ResendEmailService.sendWelcomeEmail (cfg : ResendConfig) (frontendEnv : Option String)
    (now : String) (year : Nat) (vendor : EmailPayload → Except String ResendResponse)
    (userData : UserProfile) : SendResult × Nat :=
  ResendEmailService.sendEmail cfg now vendor (welcomeEmailData userData.name userData.email frontendEnv year)

/-- Embedding of ResendEmailService.sendEmailVerification
(resendEmailService.js lines 146 to 205): builds the verification message and
delegates to sendEmail. -/
def ResendEmailService.sendEmailVerification (cfg : ResendConfig) (now : String) (year : Nat)
    (vendor : EmailPayload → Except String ResendResponse)
    (userData : UserProfile) (verificationToken : String) : SendResult × Nat :=
  ResendEmailService.sendEmail cfg now vendor
    (verificationEmailData cfg userData.name userData.email verificationToken year)

/-- Which transport adapter a dispatch step invoked; a dispatch produces a
trace (list) of these, so invocation counts are list lengths. -/
inductive Service where
  | resend
  | ses
deriving DecidableEq

/-- The format conversion EmailManager.sendEmail applies before handing a
message to the SES service (emailManager.js lines 30 to 34 and 43 to 47):
spread of the original object with htmlContent and textContent overwritten
by `emailData.html || emailData.htmlContent` and
`emailData.text || emailData.textContent`. -/
def sesConvert (emailData : EmailData) : EmailData :=
  { emailData with
    htmlContent := jsOr emailData.html emailData.htmlContent
    textContent := jsOr emailData.text emailData.textContent }

/-- The router state set up by the EmailManager constructor: the configured
primary service name and the fallback service name. -/
structure EmailManager where
  primaryService : String
  fallbackService : String
deriving DecidableEq

/-- The EmailManager constructor (emailManager.js lines 9 to 14):
`process.env.EMAIL_SERVICE || "ses"` as primary, and the fallback fixed to
"ses". -/
def EmailManager.ofEnv (env : Env) : EmailManager :=
  { primaryService := orDefault env.EMAIL_SERVICE "ses"
    fallbackService := "ses" }

/-- Embedding of EmailManager.sendEmail (emailManager.js lines 19 to 70).
The two adapters are the function parameters `resendSend` and `sesSend`
(per the adapter contract and resendEmailService.js they return a result
object rather than throwing, so the surrounding try/catch of the manager is
unreachable and the embedding omits it). Returns the result together with
the trace of adapter invocations in order. The primary attempt goes to the
Resend adapter exactly when primaryService is the string "resend" and to the
SES adapter (with converted field names) otherwise; a failed primary result
triggers at most one fallback attempt, only when primaryService differs
from fallbackService. -/
def EmailManager.sendEmail (m : EmailManager) (resendSend sesSend : EmailData → SendResult)
    (emailData : EmailData) : SendResult × List Service :=
  let first :=
    if m.primaryService == "resend" then
      (resendSend emailData, [Service.resend])
    else
      (sesSend (sesConvert emailData), [Service.ses])
  if !first.1.success && (m.primaryService != m.fallbackService) then
    if m.fallbackService == "ses" then
      (sesSend (sesConvert emailData), first.2 ++ [Service.ses])
    else if m.fallbackService == "resend" then
      (resendSend emailData, first.2 ++ [Service.resend])
    else
      first
  else
    first

/-- The object returned by EmailManager.getStatus (emailManager.js lines 198
to 206). -/
structure ManagerStatus where
  primaryService : String
  fallbackService : String
  resendConfigured : Bool
  sesConfigured : Bool
  timestamp : String
deriving DecidableEq

/-- Embedding of EmailManager.getStatus (emailManager.js lines 198 to 206):
a pure read of the router state and the environment; `now` stands for
`new Date().toISOString()`. It takes no adapter and performs no vendor
call: the configured flags are `!!process.env.RESEND_API_KEY` and
`!!(process.env.AWS_ACCESS_KEY_ID && process.env.AWS_SECRET_ACCESS_KEY)`. -/
def EmailManager.getStatus (m : EmailManager) (env : Env) (now : String) : ManagerStatus :=
  { primaryService := m.primaryService
    fallbackService := m.fallbackService
    resendConfigured := envTruthy env.RESEND_API_KEY
    sesConfigured := envTruthy env.AWS_ACCESS_KEY_ID && envTruthy env.AWS_SECRET_ACCESS_KEY
    timestamp := now }

/-- The slice of an HTTP JSON response the auth handlers produce that the
claims are about: status code, success flag, and user-facing message. The
success responses additionally carry user/token payloads built by external
collaborators (mongoose document, JWT signing); those are outside this
embedding. -/
structure ApiResponse where
  status : Nat
  success : Bool
  message : String
deriving DecidableEq

/-- A stored user record, restricted to the fields the email-verification
handler reads and writes. -/
structure StoredUser where
  name : String := ""
  email : String := ""
  emailVerificationToken : Option String := none
  emailVerificationExpire : Option Nat := none
  emailVerified : Bool := false
deriving DecidableEq

/-- Embedding of the verifyEmail handler (authController.js lines 463 to 563).
`hash` models `crypto.createHash("sha256").update(token).digest("hex")`,
`store` is the user collection with `List.find?` playing `User.findOne`
(first match), and `now` is `Date.now()`. A mongo `$gt` comparison on an
absent field is false, hence the match on emailVerificationExpire. Returns
the response together with the possibly-updated store. -/
def verifyEmail (hash : String → String) (store : List StoredUser) (now : Nat)
    (token : String) : ApiResponse × List StoredUser :=
  let emailVerificationToken := hash token
  match store.find? (fun u => u.emailVerificationToken == some emailVerificationToken) with
  | none =>
      match store.find? (fun u => u.emailVerified) with
      | some _ =>
          ({ status := 400, success := false
             message := "This verification link has already been used or is invalid" }, store)
      | none =>
          ({ status := 400, success := false
             message := "Invalid verification token" }, store)
  | some _ =>
      match store.find? (fun u => u.emailVerificationToken == some emailVerificationToken
          && (match u.emailVerificationExpire with
              | some e => decide (now < e)
              | none => false)) with
      | none =>
          ({ status := 400, success := false
             message := "Verification token has expired" }, store)
      | some user =>
          if user.emailVerified then
            ({ status := 400, success := false
               message := "Your email has already been verified" }, store)
          else
            let updated := store.map (fun u =>
              if u == user then
                { u with emailVerified := true
                         emailVerificationToken := none
                         emailVerificationExpire := none }
              else u)
            ({ status := 200, success := true
               message := "Email verified successfully" }, updated)

/-- The request body fields the register handler destructures. -/
structure RegisterBody where
  name : Option String := none
  email : Option String := none
  password : Option String := none
  phone : Option String := none
  role : Option String := none
  location : Option String := none
deriving DecidableEq

/-- The outcome of the asynchronous verification-email dispatch as seen by
the register handler: either the email manager resolved with a result
object, or the whole chain threw. -/
inductive EmailOutcome where
  | sent (r : SendResult)
  | threw (e : String)
deriving DecidableEq

/-- Embedding of the module-level sendVerificationEmail wrapper
(authController.js lines 7 to 36): returns the manager result unchanged, and
converts a thrown error into a returned failure object. -/
def AuthController.sendVerificationEmail (outcome : EmailOutcome) : SendResult :=
  match outcome with
  | .sent r => r
  | .threw e => { success := false, error := some e }

/-- Embedding of the register handler (authController.js lines 41 to 125).
`existingUser` is the truthiness of `User.findOne({ email })`; `creation`
bundles the `User.create`, token generation, and `user.save` collaborator
chain (a throw anywhere in it lands in the catch and yields the 500
response). The verification email is dispatched without awaiting
(fire-and-forget, its promise rejection only logged), so the 201 response is
built regardless of `emailOutcome`; the embedding evaluates the wrapper on
the outcome and discards the value, exactly as the handler does. -/
def register (body : RegisterBody) (existingUser : Bool) (creation : Except String Unit)
    (emailOutcome : EmailOutcome) : ApiResponse :=
  if !(envTruthy body.name) || !(envTruthy body.email) || !(envTruthy body.password) then
    { status := 400, success := false
      message := "Name, email, and password are required" }
  else if existingUser then
    { status := 400, success := false
      message := "User with this email already exists" }
  else
    match creation with
    | .error _ =>
        { status := 500, success := false
          message := "Registration failed. Please try again." }
    | .ok _ =>
        let _emailResult := AuthController.sendVerificationEmail emailOutcome
        { status := 201, success := true
          message := "Registration successful! Please check your email to verify your account before logging in." }

/-- The message template literal of sendPasswordResetEmail (authController.js
lines 650 to 666), transcribed verbatim. -/
def passwordResetMessage (name resetUrl : String) : String :=
  "\n      <h2>Password Reset Request</h2>\n      <p>Hello "
  ++ name
  ++ ",</p>\n      <p>You are receiving this email because you (or someone else) requested a password reset for your PashuMitra Portal account.</p>\n      <p>Please click the button below to reset your password:</p>\n      <div style=\"text-align: center; margin: 20px 0;\">\n        <a href=\""
  ++ resetUrl
  ++ "\" style=\"background-color: #f44336; color: white; padding: 12px 24px; text-decoration: none; border-radius: 4px; display: inline-block;\">\n          Reset Password\n        </a>\n      </div>\n      <p>Or copy and paste this link in your browser:</p>\n      <p><a href=\""
  ++ resetUrl
  ++ "\">"
  ++ resetUrl
  ++ "</a></p>\n      <p>This link will expire in 10 minutes.</p>\n      <p>If you didn\x27t request a password reset, please ignore this email and your password will remain unchanged.</p>\n      <br>\n      <p>Best regards,<br>The PashuMitra Team</p>\n    "

/-- The try block of sendPasswordResetEmail (authController.js lines 647 to
672): it builds the reset URL and the message, then evaluates the call
`sendEmail({...})`. The identifier `sendEmail` is not defined and not
imported anywhere in authController.js (the module imports only crypto,
User, logger, and emailManager), so evaluating it raises a ReferenceError
before any email-layer call can happen; the embedding makes the try block
produce that error after the two pure constructions. -/
def AuthController.sendPasswordResetEmailTry (env : Env) (user : UserProfile)
    (token : String) : Except String (SendResult × List Service) :=
  let resetUrl := jsStr env.FRONTEND_URL ++ "/reset-password?token=" ++ token
  let _message := passwordResetMessage user.name resetUrl
  Except.error "sendEmail is not defined"

/-- Embedding of sendPasswordResetEmail (authController.js lines 646 to 679):
the try block throws the ReferenceError, the catch only logs, and the
function falls through returning undefined (`none`) with an empty dispatch
trace: no adapter is ever invoked and no result object reaches the caller. -/
def AuthController.sendPasswordResetEmail (env : Env) (user : UserProfile)
    (token : String) : Option SendResult × List Service :=
  match AuthController.sendPasswordResetEmailTry env user token with
  | .ok (r, trace) => (some r, trace)
  | .error _ => (none, [])

/-- Substring containment: `pat` occurs contiguously inside `s`. -/
def strContains (s pat : String) : Prop := ∃ a b : String, s = a ++ (pat ++ b)

theorem strContains_self (pat : String) : strContains pat pat :=
  ⟨"", "", by simp⟩

theorem strContains_append_left (s t pat : String) (h : strContains t pat) :
    strContains (s ++ t) pat := by
  obtain ⟨a, b, rfl⟩ := h
  exact ⟨s ++ a, b, by simp [String.append_assoc]⟩

theorem strContains_append_right (s t pat : String) (h : strContains s pat) :
    strContains (s ++ t) pat := by
  obtain ⟨a, b, rfl⟩ := h
  exact ⟨a, b ++ t, by simp [String.append_assoc]⟩

/-- C2: for every configuration, vendor behaviour (including a vendor that
throws), and input, the Resend adapter send returns a result value rather
than propagating an exception (its embedding is a total function into
SendResult), and on every non-success path the result carries an errorDetail
string and the service tag "resend". -/
theorem resendSendEmail_never_throws (cfg : ResendConfig) (now : String)
    (vendor : EmailPayload → Except String ResendResponse) (d : EmailData) :
    (ResendEmailService.sendEmail cfg now vendor d).1.success = true
    ∨ ((ResendEmailService.sendEmail cfg now vendor d).1.success = false
       ∧ (∃ msg, (ResendEmailService.sendEmail cfg now vendor d).1.error = some msg)
       ∧ (ResendEmailService.sendEmail cfg now vendor d).1.service = some "resend") := by
  simp only [ResendEmailService.sendEmail]
  repeat' split
  all_goals simp

/-- C3: whenever the message is missing a recipient, a subject, or an HTML
body, or the Resend credential is not configured (either the raw key or the
constructed client is falsy), the Resend adapter send returns success=false
and performs zero vendor (network) calls. -/
theorem resendSendEmail_short_circuits (cfg : ResendConfig) (now : String)
    (vendor : EmailPayload → Except String ResendResponse) (d : EmailData)
    (h : envTruthy cfg.apiKey = false ∨ cfg.hasClient = false
       ∨ d.«to».truthy = false ∨ envTruthy d.subject = false
       ∨ envTruthy (jsOr d.html d.htmlContent) = false) :
    (ResendEmailService.sendEmail cfg now vendor d).1.success = false
    ∧ (ResendEmailService.sendEmail cfg now vendor d).2 = 0 := by
  simp only [ResendEmailService.sendEmail]
  rcases h with h | h | h | h | h <;> simp [h] <;> split <;> simp_all

/-- C6: getStatus is a pure read of router state and environment (it takes no
adapter and its embedding performs no vendor call), reporting
resendConfigured exactly when the Resend credential is truthy and
sesConfigured exactly when both AWS credentials are truthy. -/
theorem getStatus_reports_credential_presence (m : EmailManager) (env : Env) (now : String) :
    ((m.getStatus env now).resendConfigured = true ↔ envTruthy env.RESEND_API_KEY = true)
    ∧ ((m.getStatus env now).sesConfigured = true ↔
        (envTruthy env.AWS_ACCESS_KEY_ID = true ∧ envTruthy env.AWS_SECRET_ACCESS_KEY = true)) := by
  simp [EmailManager.getStatus]

/-- C7: for every environment, user, and token, sendPasswordResetEmail
dispatches nothing through the email layer and returns undefined rather than
a DeliveryResult: the call to the unbound identifier `sendEmail` raises a
ReferenceError that its own catch swallows. -/
theorem sendPasswordResetEmail_never_dispatches (env : Env) (user : UserProfile) (token : String) :
    AuthController.sendPasswordResetEmail env user token = (none, []) := rfl

/-- C9: whenever the register request passes field validation, no user with
the same email exists, and the user-creation collaborator chain succeeds,
the handler responds 201/success regardless of the verification-email
outcome (delivered, failed result, or thrown error): the outcome parameter
does not occur in the response. -/
theorem register_response_independent_of_email (body : RegisterBody) (o : EmailOutcome)
    (hn : envTruthy body.name = true) (he : envTruthy body.email = true)
    (hp : envTruthy body.password = true) :
    register body false (Except.ok ()) o =
      { status := 201, success := true
        message := "Registration successful! Please check your email to verify your account before logging in." } := by
  simp [register, hn, he, hp]

theorem register_response_independent_of_email_witness :
    register { name := some "Test User", email := some "test@example.com", password := some "secret12" }
      false (Except.ok ()) (EmailOutcome.threw "network down") =
      { status := 201, success := true
        message := "Registration successful! Please check your email to verify your account before logging in." } :=
  register_response_independent_of_email _ _ (by decide) (by decide) (by decide)

/-- C1: with the fallback fixed to "ses" as the constructor does, a dispatch
invokes the fallback adapter exactly when the primary attempt returned
success=false and the configured primary differs from the fallback; in that
case the trace shows the primary attempt followed by exactly one SES
fallback attempt whose result is returned, and in every other case the
primary result is returned unchanged after a single attempt — in particular
a primary failure with primary equal to fallback makes exactly one attempt. -/
theorem emailManager_fallback_iff (m : EmailManager)
    (resendSend sesSend : EmailData → SendResult) (d : EmailData)
    (hfb : m.fallbackService = "ses") :
    (((if m.primaryService == "resend" then resendSend d else sesSend (sesConvert d)).success = false
        ∧ m.primaryService ≠ m.fallbackService) →
      m.sendEmail resendSend sesSend d =
        (sesSend (sesConvert d),
         [(if m.primaryService == "resend" then Service.resend else Service.ses), Service.ses]))
    ∧ (((if m.primaryService == "resend" then resendSend d else sesSend (sesConvert d)).success = true
        ∨ m.primaryService = m.fallbackService) →
      m.sendEmail resendSend sesSend d =
        ((if m.primaryService == "resend" then resendSend d else sesSend (sesConvert d)),
         [(if m.primaryService == "resend" then Service.resend else Service.ses)])) := by
  obtain ⟨p, fb⟩ := m
  simp only at hfb
  subst hfb
  constructor
  · rintro ⟨hfail, hne⟩
    simp only at hne
    by_cases hp : p = "resend"
    · subst hp
      simp_all [EmailManager.sendEmail]
    · simp_all [EmailManager.sendEmail]
  · rintro (hsucc | heq)
    · by_cases hp : p = "resend"
      · subst hp
        simp_all [EmailManager.sendEmail]
      · simp_all [EmailManager.sendEmail]
    · simp only at heq
      subst heq
      simp [EmailManager.sendEmail]

theorem emailManager_fallback_iff_witness :
    EmailManager.sendEmail ⟨"resend", "ses"⟩
        (fun _ => { success := false }) (fun _ => { success := true }) {}
      = ({ success := true }, [Service.resend, Service.ses]) :=
  (emailManager_fallback_iff ⟨"resend", "ses"⟩ _ _ {} rfl).1 ⟨rfl, by decide⟩

/-- C10 counterexample: at EMAIL_SERVICE set to the empty string — a value
other than "resend" and other than "ses" — the constructor default
`process.env.EMAIL_SERVICE || "ses"` makes the primary service "ses" itself,
equal to the fallback, so a failed SES attempt results in a single send
attempt with trace [ses] rather than the two attempts the original claim
asserts for every value differing from "resend" and "ses". -/
theorem emailManager_empty_service_single_attempt :
    ("" : String) ≠ "resend" ∧ ("" : String) ≠ "ses"
    ∧ (EmailManager.ofEnv { EMAIL_SERVICE := some "" }).sendEmail
        (fun _ => { success := true }) (fun _ => { success := false }) {}
      = ({ success := false }, [Service.ses]) :=
  ⟨by decide, by decide, rfl⟩

/-- C10 amended: when EMAIL_SERVICE is any string other than "resend"
(including the empty string, which the constructor defaults to "ses"), the
dispatch routes the primary attempt to the SES adapter; and when that string
is additionally non-empty (truthy, so it survives the `|| "ses"` default)
and differs from "ses", a failed SES attempt makes the fallback branch
invoke the SES adapter a second time — two send attempts through the same
provider in one dispatch. -/
theorem emailManager_nonresend_routes_to_ses (env : Env)
    (resendSend sesSend : EmailData → SendResult) (d : EmailData) (s : String)
    (hs : env.EMAIL_SERVICE = some s) (hnr : s ≠ "resend") :
    ((EmailManager.ofEnv env).sendEmail resendSend sesSend d).2.head? = some Service.ses
    ∧ (s ≠ "" → s ≠ "ses" → (sesSend (sesConvert d)).success = false →
        (EmailManager.ofEnv env).sendEmail resendSend sesSend d
          = (sesSend (sesConvert d), [Service.ses, Service.ses])) := by
  have hfb : (EmailManager.ofEnv env).fallbackService = "ses" := rfl
  by_cases hie : s.isEmpty = true
  · have hs0 : s = "" := (String.isEmpty_iff s).mp hie
    subst hs0
    have hprim : (EmailManager.ofEnv env).primaryService = "ses" := by
      simp [EmailManager.ofEnv, orDefault, envTruthy, hs]
      decide
    constructor
    · simp only [EmailManager.sendEmail, hprim, hfb]
      repeat' split
      all_goals simp_all
    · intro hne _ _
      exact absurd rfl hne
  · have hie' : s.isEmpty = false := by
      cases he : s.isEmpty
      · rfl
      · exact absurd he hie
    have hprim : (EmailManager.ofEnv env).primaryService = s := by
      simp [EmailManager.ofEnv, orDefault, envTruthy, hs, hie']
    have hbeq : (s == "resend") = false := by simp [hnr]
    constructor
    · simp only [EmailManager.sendEmail, hprim, hfb, hbeq]
      repeat' split
      all_goals simp_all
    · intro _ hses hfail
      have hbne : (s != "ses") = true := by simp [hses]
      simp [EmailManager.sendEmail, hprim, hfb, hbeq, hfail, hbne]

theorem emailManager_nonresend_routes_to_ses_witness :
    (EmailManager.ofEnv { EMAIL_SERVICE := some "sendgrid" }).sendEmail
        (fun _ => { success := true }) (fun _ => { success := false }) {}
      = ({ success := false }, [Service.ses, Service.ses]) :=
  (emailManager_nonresend_routes_to_ses { EMAIL_SERVICE := some "sendgrid" } _ _ {} "sendgrid"
    rfl (by decide)).2 (by decide) (by decide) rfl

/-- C8: when the hashed token matches no stored user, the handler picks
between its two 400 messages by looking for ANY user with emailVerified
anywhere in the store: the already-used message appears exactly when some
arbitrary verified user exists, and the invalid-token message exactly when
no verified user exists at all — the token owner is never consulted. -/
theorem verifyEmail_unknown_token_message (hash : String → String) (store : List StoredUser)
    (now : Nat) (token : String)
    (h : store.find? (fun u => u.emailVerificationToken == some (hash token)) = none) :
    (verifyEmail hash store now token).1.status = 400
    ∧ ((verifyEmail hash store now token).1.message =
        "This verification link has already been used or is invalid"
       ↔ ∃ u ∈ store, u.emailVerified = true)
    ∧ ((verifyEmail hash store now token).1.message = "Invalid verification token"
       ↔ ¬ ∃ u ∈ store, u.emailVerified = true) := by
  simp only [verifyEmail, h]
  cases hv : store.find? (fun u => u.emailVerified) with
  | none =>
      have hnone : ¬ ∃ u ∈ store, u.emailVerified = true := by
        rintro ⟨u, hu, hver⟩
        have hnot := List.find?_eq_none.mp hv u hu
        simp [hver] at hnot
      dsimp only
      refine ⟨rfl, ?_, ?_⟩
      · constructor
        · intro hmsg
          exact absurd hmsg (by decide)
        · intro hex
          exact absurd hex hnone
      · constructor
        · intro _
          exact hnone
        · intro _
          rfl
  | some u =>
      have hex : ∃ v ∈ store, v.emailVerified = true := by
        refine ⟨u, List.mem_of_find?_eq_some hv, ?_⟩
        simpa using List.find?_some hv
      dsimp only
      refine ⟨rfl, ?_, ?_⟩
      · constructor
        · intro _
          exact hex
        · intro _
          rfl
      · constructor
        · intro hmsg
          exact absurd hmsg (by decide)
        · intro hno
          exact absurd hex hno

theorem verifyEmail_unknown_token_message_witness :
    (verifyEmail id [{ emailVerificationToken := some "other", emailVerified := true }] 0 "tok").1.status = 400
    ∧ ((verifyEmail id [{ emailVerificationToken := some "other", emailVerified := true }] 0 "tok").1.message =
        "This verification link has already been used or is invalid"
       ↔ ∃ u ∈ [({ emailVerificationToken := some "other", emailVerified := true } : StoredUser)], u.emailVerified = true)
    ∧ ((verifyEmail id [{ emailVerificationToken := some "other", emailVerified := true }] 0 "tok").1.message =
        "Invalid verification token"
       ↔ ¬ ∃ u ∈ [({ emailVerificationToken := some "other", emailVerified := true } : StoredUser)], u.emailVerified = true) :=
  verifyEmail_unknown_token_message id
    [{ emailVerificationToken := some "other", emailVerified := true }] 0 "tok" (by decide)

theorem strContains_trans (s mid pat : String) (h1 : strContains s mid)
    (h2 : strContains mid pat) : strContains s pat := by
  obtain ⟨a, b, rfl⟩ := h1
  obtain ⟨c, d, rfl⟩ := h2
  exact ⟨a ++ c, d ++ b, by simp [String.append_assoc]⟩

theorem verificationUrl_contains_token (frontendUrl token : String) :
    strContains (verificationUrl frontendUrl token) ("token=" ++ token) := by
  have hsplit : ("/verify-email?token=" : String) = "/verify-email?" ++ "token=" := by decide
  refine ⟨frontendUrl ++ "/verify-email?", "", ?_⟩
  unfold verificationUrl
  calc (frontendUrl ++ "/verify-email?token=") ++ token
      = (frontendUrl ++ ("/verify-email?" ++ "token=")) ++ token := by rw [hsplit]
    _ = ((frontendUrl ++ "/verify-email?") ++ "token=") ++ token := by
        rw [← String.append_assoc frontendUrl "/verify-email?" "token="]
    _ = (frontendUrl ++ "/verify-email?") ++ ("token=" ++ token) := by
        rw [String.append_assoc]
    _ = (frontendUrl ++ "/verify-email?") ++ (("token=" ++ token) ++ "") := by simp

theorem verificationHtml_contains_url (name url fromEmail : String) (year : Nat) :
    strContains (verificationHtml name url fromEmail year) url := by
  unfold verificationHtml
  apply strContains_append_right
  apply strContains_append_right
  apply strContains_append_right
  apply strContains_append_right
  apply strContains_append_right
  apply strContains_append_right
  apply strContains_append_right
  apply strContains_append_right
  apply strContains_append_right
  apply strContains_append_left
  exact strContains_self url

theorem verificationText_contains_url (name url : String) (year : Nat) :
    strContains (verificationText name url year) url := by
  unfold verificationText
  apply strContains_append_right
  apply strContains_append_right
  apply strContains_append_right
  apply strContains_append_left
  exact strContains_self url

/-- C4: the message built by sendEmailVerification carries the verification
URL frontendBase/verify-email?token=TOKEN in both the HTML body and the text
body; the HTML body therefore contains the substring token=TOKEN for every
token (in particular token=tok123 for the token "tok123"), and the embedded
URL at token "tok123" is exactly frontendBase followed by
/verify-email?token=tok123. -/
theorem sendEmailVerification_embeds_url (cfg : ResendConfig) (u : UserProfile)
    (token : String) (year : Nat) :
    (verificationEmailData cfg u.name u.email token year).htmlContent
      = some (verificationHtml u.name (verificationUrl cfg.frontendUrl token) cfg.fromEmail year)
    ∧ strContains (verificationHtml u.name (verificationUrl cfg.frontendUrl token) cfg.fromEmail year)
        (verificationUrl cfg.frontendUrl token)
    ∧ strContains (verificationText u.name (verificationUrl cfg.frontendUrl token) year)
        (verificationUrl cfg.frontendUrl token)
    ∧ strContains (verificationHtml u.name (verificationUrl cfg.frontendUrl token) cfg.fromEmail year)
        ("token=" ++ token)
    ∧ verificationUrl cfg.frontendUrl "tok123" = cfg.frontendUrl ++ "/verify-email?token=tok123" := by
  refine ⟨rfl, verificationHtml_contains_url _ _ _ _, verificationText_contains_url _ _ _, ?_, ?_⟩
  · exact strContains_trans _ _ _ (verificationHtml_contains_url _ _ _ _)
      (verificationUrl_contains_token _ _)
  · unfold verificationUrl
    rw [String.append_assoc]
    exact congrArg (fun x => cfg.frontendUrl ++ x) (by decide)

theorem resendSendEmail_short_circuits_witness :
    (ResendEmailService.sendEmail (ResendConfig.ofEnv {}) "2025-01-01T00:00:00.000Z"
        (fun _ => Except.ok {})
        { «to» := .str "test@example.com", subject := some "Hi", html := some "<p>x</p>" }).1.success = false
    ∧ (ResendEmailService.sendEmail (ResendConfig.ofEnv {}) "2025-01-01T00:00:00.000Z"
        (fun _ => Except.ok {})
        { «to» := .str "test@example.com", subject := some "Hi", html := some "<p>x</p>" }).2 = 0 :=
  resendSendEmail_short_circuits _ _ _ _ (Or.inl (by decide))

set_option maxRecDepth 40000 in
/-- C5 counterexample: the message builders read the clock
(new Date().getFullYear() is interpolated into the footer of both bodies),
so two invocations with identical profile and token arguments but made in
different years produce different textBody fields — the builders are not
functions of the profile and token alone. -/
theorem builders_not_clock_independent :
    (verificationEmailData (ResendConfig.ofEnv {}) "Test User" "test@example.com" "tok123" 2025).textContent
    ≠ (verificationEmailData (ResendConfig.ofEnv {}) "Test User" "test@example.com" "tok123" 2026).textContent := by
  decide

/-- C5 amended: the message construction of sendWelcomeEmail and
sendEmailVerification is deterministic in the profile, the token, the
ambient configuration it reads (from-address and frontend base URL), and the
current clock year: two constructions agreeing on those produce identical
to, subject, htmlBody, and textBody, independent of every other part of the
environment (credentials, service selector) — and the construction takes no
vendor call parameter at all, so it performs no network call. -/
theorem builders_deterministic_given_config_and_year (env1 env2 : Env) (u : UserProfile)
    (token : String) (year : Nat)
    (hfrom : env1.EMAIL_FROM = env2.EMAIL_FROM)
    (hfront : env1.FRONTEND_URL = env2.FRONTEND_URL) :
    verificationEmailData (ResendConfig.ofEnv env1) u.name u.email token year
      = verificationEmailData (ResendConfig.ofEnv env2) u.name u.email token year
    ∧ welcomeEmailData u.name u.email env1.FRONTEND_URL year
      = welcomeEmailData u.name u.email env2.FRONTEND_URL year := by
  constructor
  · simp [verificationEmailData, ResendConfig.ofEnv, hfrom, hfront]
  · rw [hfront]

theorem builders_deterministic_given_config_and_year_witness :
    verificationEmailData (ResendConfig.ofEnv { RESEND_API_KEY := some "key-a" })
        "Test User" "test@example.com" "tok123" 2025
      = verificationEmailData
          (ResendConfig.ofEnv { RESEND_API_KEY := some "key-b", AWS_ACCESS_KEY_ID := some "aws" })
          "Test User" "test@example.com" "tok123" 2025
    ∧ welcomeEmailData "Test User" "test@example.com"
        ({ RESEND_API_KEY := some "key-a" } : Env).FRONTEND_URL 2025
      = welcomeEmailData "Test User" "test@example.com"
          ({ RESEND_API_KEY := some "key-b", AWS_ACCESS_KEY_ID := some "aws" } : Env).FRONTEND_URL 2025 :=
  builders_deterministic_given_config_and_year
    { RESEND_API_KEY := some "key-a" }
    { RESEND_API_KEY := some "key-b", AWS_ACCESS_KEY_ID := some "aws" }
    ⟨"Test User", "test@example.com"⟩ "tok123" 2025 rfl rfl
